import Mathlib

/-!
Shallow embedding of the hal-elements descriptor codecs.

The embedding follows the Rust sources of the repository:
* `src/confidential.rs` — decode side of the tri-state confidential fields
  (namespace `HalConfidential`);
* `src/bin/hal-elements/cmd/tx/create.rs` — the older encode pipeline
  (namespace `TxCreate`);
* `src/bin/hal-elements/cmd/tx.rs` — the newer encode pipeline
  (namespace `TxCmd`);
* `src/tx.rs` — decode side of outputs and scripts (namespace `HalTx`).

Machine bytes are modelled as `Nat` values; byte strings as `List Nat`.
Rust panics (`expect`, `panic!`, slice-index aborts) are modelled as an
explicit error channel `CreateError`; the `warn!` macro is modelled by
threading a list of warning strings (`CreateM` below).
-/

/-- A byte string (Rust `Vec<u8>`, `[u8; 32]`, `HexBytes`). -/
abbrev Bytes := List Nat

/-- The ways an encode-path call can abort: a failed `expect` with its
message, an explicit `panic!` with its message, or an out-of-range
slice/index abort. -/
inductive CreateError where
  | expectFail (msg : String)
  | panicFail (msg : String)
  | indexOutOfRange
deriving DecidableEq, Repr

/-- Result type of the pure (warning-free) encode helpers. -/
abbrev CResult (α : Type) := Except CreateError α

/-- Encode-path monad: accumulates `warn!` messages and may abort with a
`CreateError` (models Rust panics). -/
abbrev CreateM (α : Type) := StateT (List String) (Except CreateError) α

/-- The `warn!` macro: records a warning message and continues. -/
def warn (msg : String) : CreateM Unit :=
  modify (fun w => w ++ [msg])

/-- Run an encode-path computation with no warnings accumulated yet. -/
def runE {α : Type} (m : CreateM α) : Except CreateError (α × List String) :=
  m.run []

/-- Unfolding lemma: running a thrown error. -/
theorem run_throw {α : Type} (e : CreateError) (w : List String) :
    StateT.run (throw e : CreateM α) w = Except.error e := rfl

/-- Unfolding lemma: running a pure value. -/
theorem run_pure {α : Type} (a : α) (w : List String) :
    StateT.run (pure a : CreateM α) w = Except.ok (a, w) := rfl

/-- Unfolding lemma: `pure` in the underlying `Except` monad. -/
theorem except_pure {α : Type} (a : α) : (pure a : CResult α) = Except.ok a := rfl

/-- Unfolding lemma: `throw` in the underlying `Except` monad. -/
theorem except_throw {α : Type} (e : CreateError) : (throw e : CResult α) = Except.error e := rfl

/-- Unfolding lemma: running a bind splits into running the two stages. -/
theorem run_bind {α β : Type} (m : CreateM α) (k : α → CreateM β) (w : List String) :
    StateT.run (m >>= k) w =
      match StateT.run m w with
      | .ok (a, w') => StateT.run (k a) w'
      | .error e => .error e := by
  cases h : StateT.run m w with
  | ok p =>
    simp [StateT.run, Bind.bind, StateT.bind] at h ⊢
    rw [h]
    rfl
  | error e =>
    simp [StateT.run, Bind.bind, StateT.bind] at h ⊢
    rw [h]
    rfl

/-- The `type` tag of a confidential field descriptor
(`ConfidentialType` in `src/confidential.rs`). -/
inductive ConfidentialType where
  | null
  | explicit
  | confidential
deriving DecidableEq, Repr

/-- A 32-byte hash (`sha256d::Hash`, `Txid`, `BlockHash`), kept as its raw
byte string. -/
abbrev Hash256 := Bytes

/-- `ConfidentialValueInfo` from `src/confidential.rs`. -/
structure ConfidentialValueInfo where
  type_ : ConfidentialType
  value : Option Nat
  commitment : Option Bytes
deriving DecidableEq, Repr

/-- The display label of well-known assets
(`ConfidentialAssetLabel` in `src/confidential.rs`). -/
inductive ConfidentialAssetLabel where
  | liquidBitcoin
deriving DecidableEq, Repr

/-- `ConfidentialAssetInfo` from `src/confidential.rs`. -/
structure ConfidentialAssetInfo where
  type_ : ConfidentialType
  asset : Option Hash256
  commitment : Option Bytes
  label : Option ConfidentialAssetLabel
deriving DecidableEq, Repr

/-- `ConfidentialNonceInfo` from `src/confidential.rs`. -/
structure ConfidentialNonceInfo where
  type_ : ConfidentialType
  nonce : Option Hash256
  commitment : Option Bytes
deriving DecidableEq, Repr

namespace OldConf

/-- The older elements `confidential::Value`: `Null`, `Explicit(u64)` or
`Confidential(u8, [u8; 32])` (commitment type-prefix byte and body). -/
inductive CValue where
  | null
  | explicit (v : Nat)
  | confidential (pfx : Nat) (body : Bytes)
deriving DecidableEq, Repr

/-- The older elements `confidential::Asset`. -/
inductive CAsset where
  | null
  | explicit (id : Hash256)
  | confidential (pfx : Nat) (body : Bytes)
deriving DecidableEq, Repr

/-- The older elements `confidential::Nonce`. -/
inductive CNonce where
  | null
  | explicit (n : Hash256)
  | confidential (pfx : Nat) (body : Bytes)
deriving DecidableEq, Repr

end OldConf

namespace HalConfidential

open OldConf

/-- The display-hex string of the Liquid Bitcoin asset id, as compared by
`ConfidentialAssetLabel::from_asset_id` in `src/confidential.rs`; asset ids
are modelled by their display-hex rendering here, which is faithful because
the comparison in the source is on the display string. -/
def liquidBitcoinId : Hash256 :=
  [0x6d, 0x52, 0x1c, 0x38, 0xec, 0x1e, 0xa1, 0x57, 0x34, 0xae, 0x22, 0xb7,
   0xc4, 0x60, 0x64, 0x41, 0x28, 0x29, 0xc0, 0xd0, 0x57, 0x9f, 0x0a, 0x71,
   0x3d, 0x1c, 0x04, 0xed, 0xe9, 0x79, 0x02, 0x6f]

/-- `ConfidentialAssetLabel::from_asset_id` from `src/confidential.rs`:
labels the Liquid Bitcoin asset id, and nothing else. -/
def fromAssetId (id : Hash256) : Option ConfidentialAssetLabel :=
  if id = liquidBitcoinId then some ConfidentialAssetLabel.liquidBitcoin else none

/-- `impl GetInfo<ConfidentialValueInfo> for Value` (decode) from
`src/confidential.rs`: tags the state, emits the explicit value when
explicit, and emits the commitment as prefix byte followed by the body
bytes when confidential. -/
def valueGetInfo (v : CValue) : ConfidentialValueInfo where
  type_ := match v with
    | .null => .null
    | .explicit _ => .explicit
    | .confidential _ _ => .confidential
  value := match v with
    | .explicit n => some n
    | _ => none
  commitment := match v with
    | .confidential p c => some (p :: c)
    | _ => none

/-- `impl GetInfo<ConfidentialAssetInfo> for Asset` (decode) from
`src/confidential.rs`. -/
def assetGetInfo (a : CAsset) : ConfidentialAssetInfo where
  type_ := match a with
    | .null => .null
    | .explicit _ => .explicit
    | .confidential _ _ => .confidential
  asset := match a with
    | .explicit i => some i
    | _ => none
  commitment := match a with
    | .confidential p c => some (p :: c)
    | _ => none
  label := match a with
    | .explicit i => fromAssetId i
    | _ => none

/-- `impl GetInfo<ConfidentialNonceInfo> for Nonce` (decode) from
`src/confidential.rs`. -/
def nonceGetInfo (n : CNonce) : ConfidentialNonceInfo where
  type_ := match n with
    | .null => .null
    | .explicit _ => .explicit
    | .confidential _ _ => .confidential
  nonce := match n with
    | .explicit x => some x
    | _ => none
  commitment := match n with
    | .confidential p c => some (p :: c)
    | _ => none

end HalConfidential

namespace TxCreate

open OldConf

/-- `bytes_32` from `src/bin/hal-elements/cmd/tx/create.rs`: succeeds
exactly on 32-byte strings, copying them through unchanged. -/
def bytes_32 (bytes : Bytes) : Option Bytes :=
  if bytes.length ≠ 32 then none else some bytes

/-- `create_commitment` from `src/bin/hal-elements/cmd/tx/create.rs`:
`(comm[0], bytes_32(&comm[1..33]).expect(..))`.  A missing payload fails the
dedicated `expect`; a payload shorter than 33 bytes aborts by out-of-range
indexing (at `comm[0]` when empty, at the slice `comm[1..33]` otherwise);
bytes past index 32 are never read. -/
def create_commitment (bytes : Option Bytes) : CResult (Nat × Bytes) :=
  match bytes with
  | none => throw (.expectFail "Field \"commitment\" is required for confidential values.")
  | some comm =>
    if comm.length < 33 then throw .indexOutOfRange
    else match bytes_32 ((comm.drop 1).take 32) with
      | some body => pure (comm.headD 0, body)
      | none => throw (.expectFail "Invalid size of \"commitment\".")

/-- `create_confidential_value` from
`src/bin/hal-elements/cmd/tx/create.rs`. -/
def create_confidential_value (info : ConfidentialValueInfo) : CResult CValue :=
  match info.type_ with
  | .null => pure .null
  | .explicit =>
    match info.value with
    | some v => pure (.explicit v)
    | none => throw (.expectFail "Field \"value\" is required for explicit values.")
  | .confidential => do
    let comm ← create_commitment info.commitment
    pure (.confidential comm.1 comm.2)

/-- `create_confidential_asset` from
`src/bin/hal-elements/cmd/tx/create.rs`. -/
def create_confidential_asset (info : ConfidentialAssetInfo) : CResult CAsset :=
  match info.type_ with
  | .null => pure .null
  | .explicit =>
    match info.asset with
    | some a => pure (.explicit a)
    | none => throw (.expectFail "Field \"asset\" is required for explicit assets.")
  | .confidential => do
    let comm ← create_commitment info.commitment
    pure (.confidential comm.1 comm.2)

/-- `create_confidential_nonce` from
`src/bin/hal-elements/cmd/tx/create.rs`. -/
def create_confidential_nonce (info : ConfidentialNonceInfo) : CResult CNonce :=
  match info.type_ with
  | .null => pure .null
  | .explicit =>
    match info.nonce with
    | some n => pure (.explicit n)
    | none => throw (.expectFail "Field \"nonce\" is required for explicit nonces.")
  | .confidential => do
    let comm ← create_commitment info.commitment
    pure (.confidential comm.1 comm.2)

end TxCreate

namespace OldConf

/-- Well-shaped older-elements confidential value: a confidential body is
32 bytes (the shape every decoded value has). -/
def CValueWF : CValue → Prop
  | .confidential _ body => body.length = 32
  | _ => True

/-- Well-shaped older-elements confidential asset. -/
def CAssetWF : CAsset → Prop
  | .confidential _ body => body.length = 32
  | _ => True

/-- Well-shaped older-elements confidential nonce. -/
def CNonceWF : CNonce → Prop
  | .confidential _ body => body.length = 32
  | _ => True

end OldConf

/-- Claim C9: encoding a confidential-state payload is defined exactly on
commitment payloads of at least 33 bytes; the prefix is byte 0 and the body
is bytes 1..32; bytes past index 32 are ignored, so payloads agreeing on
their first 33 bytes encode equally; shorter payloads abort by out-of-range
indexing, not by the dedicated size fault. -/
theorem claim_C9_commitment_payload_shape :
    (∀ b : Bytes, b.length < 33 →
      TxCreate.create_commitment (some b) = .error .indexOutOfRange) ∧
    (∀ b : Bytes, 33 ≤ b.length →
      TxCreate.create_commitment (some b) = .ok (b.headD 0, (b.drop 1).take 32)) ∧
    (∀ b₁ b₂ : Bytes, 33 ≤ b₁.length → 33 ≤ b₂.length → b₁.take 33 = b₂.take 33 →
      TxCreate.create_commitment (some b₁) = TxCreate.create_commitment (some b₂)) := by
  have hok : ∀ b : Bytes, 33 ≤ b.length →
      TxCreate.create_commitment (some b) = .ok (b.headD 0, (b.drop 1).take 32) := by
    intro b h
    have h1 : ¬ b.length < 33 := by omega
    have h2 : TxCreate.bytes_32 ((b.drop 1).take 32) = some ((b.drop 1).take 32) := by
      have hl : ((b.drop 1).take 32).length = 32 := by
        simp only [List.length_take, List.length_drop]
        omega
      simp only [TxCreate.bytes_32, hl]
      simp
    simp only [TxCreate.create_commitment]
    rw [if_neg h1, h2]
    rfl
  refine ⟨?_, hok, ?_⟩
  · intro b h
    simp only [TxCreate.create_commitment]
    rw [if_pos h]
    rfl
  · intro b₁ b₂ h₁ h₂ hpre
    rw [hok b₁ h₁, hok b₂ h₂]
    match b₁, b₂, h₁, h₂, hpre with
    | a₁ :: t₁, a₂ :: t₂, _, _, hpre =>
      simp only [List.take_succ_cons, List.cons.injEq] at hpre
      simp [hpre.1, hpre.2]

/-- Witness for C9: a 32-byte payload aborts by out-of-range indexing. -/
theorem claim_C9_witness :
    TxCreate.create_commitment (some (List.replicate 32 0)) = .error .indexOutOfRange :=
  claim_C9_commitment_payload_shape.1 _ (by decide)

/-- Claim C2: for each of the three confidential states of a value, asset
or nonce, encoding the descriptor produced by decoding a validly-shaped
instance reproduces the original exactly; the confidential decode emits the
commitment as prefix byte followed by the 32-byte body; encode fails with a
missing-field fault when the payload for the declared state is absent. -/
theorem claim_C2_tristate_roundtrip :
    (∀ v : OldConf.CValue, OldConf.CValueWF v →
      TxCreate.create_confidential_value (HalConfidential.valueGetInfo v) = .ok v) ∧
    (∀ a : OldConf.CAsset, OldConf.CAssetWF a →
      TxCreate.create_confidential_asset (HalConfidential.assetGetInfo a) = .ok a) ∧
    (∀ n : OldConf.CNonce, OldConf.CNonceWF n →
      TxCreate.create_confidential_nonce (HalConfidential.nonceGetInfo n) = .ok n) ∧
    (∀ (p : Nat) (c : Bytes),
      (HalConfidential.valueGetInfo (.confidential p c)).commitment = some (p :: c)) ∧
    (∀ info : ConfidentialValueInfo, info.type_ = .explicit → info.value = none →
      TxCreate.create_confidential_value info =
        .error (.expectFail "Field \"value\" is required for explicit values.")) ∧
    (∀ info : ConfidentialValueInfo, info.type_ = .confidential → info.commitment = none →
      TxCreate.create_confidential_value info =
        .error (.expectFail "Field \"commitment\" is required for confidential values.")) := by
  have hcomm : ∀ (p : Nat) (c : Bytes), c.length = 32 →
      TxCreate.create_commitment (some (p :: c)) = .ok (p, c) := by
    intro p c hc
    have h1 : ¬ (p :: c).length < 33 := by simp [hc]
    have hdrop : ((p :: c).drop 1).take 32 = c := by
      rw [show (p :: c).drop 1 = c from rfl, ← hc, List.take_length]
    have h2 : TxCreate.bytes_32 (((p :: c).drop 1).take 32) = some c := by
      rw [hdrop]
      simp [TxCreate.bytes_32, hc]
    simp only [TxCreate.create_commitment]
    rw [if_neg h1, h2]
    rfl
  refine ⟨?_, ?_, ?_, ?_, ?_, ?_⟩
  · intro v hv
    match v with
    | .null => rfl
    | .explicit n => rfl
    | .confidential p c =>
      simp only [OldConf.CValueWF] at hv
      simp only [TxCreate.create_confidential_value, HalConfidential.valueGetInfo]
      rw [hcomm p c hv]
      rfl
  · intro a ha
    match a with
    | .null => rfl
    | .explicit i => rfl
    | .confidential p c =>
      simp only [OldConf.CAssetWF] at ha
      simp only [TxCreate.create_confidential_asset, HalConfidential.assetGetInfo]
      rw [hcomm p c ha]
      rfl
  · intro n hn
    match n with
    | .null => rfl
    | .explicit x => rfl
    | .confidential p c =>
      simp only [OldConf.CNonceWF] at hn
      simp only [TxCreate.create_confidential_nonce, HalConfidential.nonceGetInfo]
      rw [hcomm p c hn]
      rfl
  · intro p c
    rfl
  · intro info ht hv
    obtain ⟨t, val, comm⟩ := info
    cases ht
    cases hv
    rfl
  · intro info ht hc
    obtain ⟨t, val, comm⟩ := info
    cases ht
    cases hc
    rfl

/-- Witness for C2: a concrete confidential value round-trips, reproducing
its prefix byte and 32-byte body exactly. -/
theorem claim_C2_witness :
    TxCreate.create_confidential_value
        (HalConfidential.valueGetInfo (.confidential 8 (List.replicate 32 1))) =
      .ok (.confidential 8 (List.replicate 32 1)) :=
  claim_C2_tristate_roundtrip.1 _ (by simp [OldConf.CValueWF])

/-- Known Elements networks, from `src/lib.rs`. -/
inductive Network where
  | elementsRegtest
  | liquid
deriving DecidableEq, Repr

/-- The static elements `AddressParams` an address carries: the two known
parameter sets plus a catch-all for any other parameter set. -/
inductive AddressParams where
  | elementsParams
  | liquidParams
  | otherParams
deriving DecidableEq, Repr

/-- `Network::from_params` from `src/lib.rs`. -/
def Network.from_params : AddressParams → Option Network
  | .elementsParams => some .elementsRegtest
  | .liquidParams => some .liquid
  | .otherParams => none

/-- `Network::address_params` from `src/lib.rs`. -/
def Network.address_params : Network → AddressParams
  | .elementsRegtest => .elementsParams
  | .liquid => .liquidParams

/-- An elements address (external collaborator): carries its network
parameter set and the script-pubkey bytes its external
`Address::script_pubkey` derivation produces. -/
structure ElementsAddress where
  params : AddressParams
  spk : Bytes
deriving DecidableEq, Repr

/-- The external `Address::script_pubkey` derivation, kept as the bytes
stored on the modelled address. -/
def ElementsAddress.script_pubkey (a : ElementsAddress) : Bytes := a.spk

/-- A bitcoin address (external collaborator), likewise carrying the bytes
of its derived script pubkey. -/
structure BtcAddress where
  spk : Bytes
deriving DecidableEq, Repr

/-- The external bitcoin `Address::script_pubkey` derivation. -/
def BtcAddress.script_pubkey (a : BtcAddress) : Bytes := a.spk

namespace TxCmd

/-- elements `OutPoint`: 32-byte transaction id plus output index. -/
structure OutPoint where
  txid : Hash256
  vout : Nat
deriving DecidableEq, Repr

/-- bitcoin `OutPoint`. -/
structure BtcOutPoint where
  txid : Hash256
  vout : Nat
deriving DecidableEq, Repr

/-- A Pedersen commitment (external secp256k1-zkp value), kept as its
33 serialized bytes. -/
structure PedersenCommitment where
  bytes : Bytes
deriving DecidableEq, Repr

/-- External `PedersenCommitment::from_slice`: the structural check is that
the blob is 33 bytes (type-prefix byte plus 32-byte body); deeper
cryptographic validity is outside the codec per the spec's external
interfaces and is not modelled. -/
def PedersenCommitment.from_slice (b : Bytes) : Option PedersenCommitment :=
  if b.length = 33 then some ⟨b⟩ else none

/-- An asset generator (external secp256k1-zkp value), 33 bytes. -/
structure Generator where
  bytes : Bytes
deriving DecidableEq, Repr

/-- External `Generator::from_slice`, structural 33-byte check. -/
def Generator.from_slice (b : Bytes) : Option Generator :=
  if b.length = 33 then some ⟨b⟩ else none

/-- A secp256k1 public key (external), 33 or 65 serialized bytes. -/
structure PubKey where
  bytes : Bytes
deriving DecidableEq, Repr

/-- External `PublicKey::from_slice`, structural length check. -/
def PubKey.from_slice (b : Bytes) : Option PubKey :=
  if b.length = 33 ∨ b.length = 65 then some ⟨b⟩ else none

/-- A secp256k1 scalar tweak (external), 32 bytes. -/
structure Tweak where
  bytes : Bytes
deriving DecidableEq, Repr

/-- External `Tweak::from_slice`, structural 32-byte check. -/
def Tweak.from_slice (b : Bytes) : Option Tweak :=
  if b.length = 32 then some ⟨b⟩ else none

/-- A range proof (external), an unread byte blob; the external parser is
modelled as accepting every blob since proofs are consumed as verified
byte blobs per the spec's external interfaces. -/
structure RangeProof where
  bytes : Bytes
deriving DecidableEq, Repr

/-- External `RangeProof::from_slice` (see `RangeProof`). -/
def RangeProof.from_slice (b : Bytes) : Option RangeProof := some ⟨b⟩

/-- A surjection proof (external), an unread byte blob. -/
structure SurjectionProof where
  bytes : Bytes
deriving DecidableEq, Repr

/-- External `SurjectionProof::from_slice` (see `RangeProof`). -/
def SurjectionProof.from_slice (b : Bytes) : Option SurjectionProof := some ⟨b⟩

/-- The newer elements `confidential::Value`. -/
inductive CValueN where
  | null
  | explicit (v : Nat)
  | confidential (c : PedersenCommitment)
deriving DecidableEq, Repr

/-- The newer elements `confidential::Asset`. -/
inductive CAssetN where
  | null
  | explicit (id : Hash256)
  | confidential (g : Generator)
deriving DecidableEq, Repr

/-- The newer elements `confidential::Nonce`. -/
inductive CNonceN where
  | null
  | explicit (n : Bytes)
  | confidential (k : PubKey)
deriving DecidableEq, Repr

/-- elements `AssetIssuance`. -/
structure AssetIssuance where
  asset_blinding_nonce : Tweak
  asset_entropy : Bytes
  amount : CValueN
  inflation_keys : CValueN
deriving DecidableEq, Repr

/-- The external `Default` for `AssetIssuance`: zero nonce and entropy,
null amounts. -/
def defaultAssetIssuance : AssetIssuance :=
  ⟨⟨List.replicate 32 0⟩, List.replicate 32 0, .null, .null⟩

/-- elements `TxInWitness`. -/
structure TxInWitness where
  amount_rangeproof : Option RangeProof
  inflation_keys_rangeproof : Option RangeProof
  script_witness : List Bytes
  pegin_witness : List Bytes
deriving DecidableEq, Repr

/-- The external `Default` for `TxInWitness`. -/
def defaultTxInWitness : TxInWitness := ⟨none, none, [], []⟩

/-- elements `TxIn`. -/
structure TxIn where
  previous_output : OutPoint
  script_sig : Bytes
  sequence : Nat
  is_pegin : Bool
  asset_issuance : AssetIssuance
  witness : TxInWitness
deriving DecidableEq, Repr

/-- elements `TxOutWitness`. -/
structure TxOutWitness where
  surjection_proof : Option SurjectionProof
  rangeproof : Option RangeProof
deriving DecidableEq, Repr

/-- The external `Default` for `TxOutWitness`. -/
def defaultTxOutWitness : TxOutWitness := ⟨none, none⟩

/-- elements `TxOut`. -/
structure TxOut where
  asset : CAssetN
  value : CValueN
  nonce : CNonceN
  script_pubkey : Bytes
  witness : TxOutWitness
deriving DecidableEq, Repr

/-- elements `Transaction`. -/
structure Transaction where
  version : Nat
  lock_time : Nat
  input : List TxIn
  output : List TxOut
deriving DecidableEq, Repr

/-- `AssetIssuanceInfo` from `src/tx.rs`. -/
structure AssetIssuanceInfo where
  asset_blinding_nonce : Option Bytes
  asset_entropy : Option Bytes
  amount : Option ConfidentialValueInfo
  inflation_keys : Option ConfidentialValueInfo
deriving DecidableEq, Repr

/-- `PeginDataInfo` from `src/tx.rs`.  The `outpoint` field is a combined
`txid:vout` string in the source; it is modelled by the bitcoin outpoint
the external `FromStr` collaborator parses it to. -/
structure PeginDataInfo where
  outpoint : BtcOutPoint
  value : Nat
  asset : ConfidentialAssetInfo
  genesis_hash : Hash256
  claim_script : Bytes
  mainchain_tx_hex : Bytes
  mainchain_tx : Option Unit
  merkle_proof : Bytes
  referenced_block : Hash256
deriving DecidableEq, Repr

/-- `InputWitnessInfo` from `src/tx.rs`. -/
structure InputWitnessInfo where
  amount_rangeproof : Option Bytes
  inflation_keys_rangeproof : Option Bytes
  script_witness : Option (List Bytes)
  pegin_witness : Option (List Bytes)
deriving DecidableEq, Repr

/-- `InputScriptInfo` from `src/tx.rs`. -/
structure InputScriptInfo where
  hex : Option Bytes
  asm : Option String
deriving DecidableEq, Repr

/-- `InputInfo` from `src/tx.rs`.  The `prevout` field is a combined
`txid:vout` string in the source; it is modelled by the outpoint the
external `FromStr` collaborator parses it to. -/
structure InputInfo where
  prevout : Option OutPoint
  txid : Option Hash256
  vout : Option Nat
  script_sig : Option InputScriptInfo
  sequence : Option Nat
  is_pegin : Option Bool
  has_issuance : Option Bool
  asset_issuance : Option AssetIssuanceInfo
  witness : Option InputWitnessInfo
  pegin_data : Option PeginDataInfo
deriving DecidableEq, Repr

/-- The bitcoin-side `hal::tx::OutputScriptInfo` (external hal crate). -/
structure BtcOutputScriptInfo where
  hex : Option Bytes
  asm : Option String
  type_ : Option String
  address : Option BtcAddress
deriving DecidableEq, Repr

/-- `PegoutDataInfo` from `src/tx.rs`. -/
structure PegoutDataInfo where
  value : Nat
  asset : ConfidentialAssetInfo
  genesis_hash : Hash256
  script_pub_key : BtcOutputScriptInfo
  extra_data : List Bytes
deriving DecidableEq, Repr

/-- `OutputWitnessInfo` from `src/tx.rs`. -/
structure OutputWitnessInfo where
  surjection_proof : Option Bytes
  rangeproof : Option Bytes
deriving DecidableEq, Repr

/-- `OutputScriptInfo` from `src/tx.rs`. -/
structure OutputScriptInfo where
  hex : Option Bytes
  asm : Option String
  type_ : Option String
  address : Option ElementsAddress
deriving DecidableEq, Repr

/-- `OutputInfo` from `src/tx.rs`. -/
structure OutputInfo where
  script_pub_key : Option OutputScriptInfo
  asset : Option ConfidentialAssetInfo
  value : Option ConfidentialValueInfo
  nonce : Option ConfidentialNonceInfo
  witness : Option OutputWitnessInfo
  is_fee : Option Bool
  pegout_data : Option PegoutDataInfo
deriving DecidableEq, Repr

/-- `TransactionInfo` from `src/tx.rs`. -/
structure TransactionInfo where
  txid : Option Hash256
  wtxid : Option Hash256
  hash : Option Hash256
  size : Option Nat
  weight : Option Nat
  vsize : Option Nat
  version : Option Nat
  locktime : Option Nat
  inputs : Option (List InputInfo)
  outputs : Option (List OutputInfo)
deriving DecidableEq, Repr

end TxCmd

/-- Little-endian byte rendering of a number on `k` bytes (external
consensus encoding collaborator). -/
def leBytes (k n : Nat) : Bytes := (List.range k).map (fun i => n / 256 ^ i % 256)

/-- Consensus serialization of a `u64` (external collaborator): 8 bytes,
little endian. -/
def serU64 (n : Nat) : Bytes := leBytes 8 n

/-- Consensus `VarInt` serialization (external collaborator). -/
def serVarInt (n : Nat) : Bytes :=
  if n < 0xfd then [n]
  else if n ≤ 0xffff then 0xfd :: leBytes 2 n
  else if n ≤ 0xffffffff then 0xfe :: leBytes 4 n
  else 0xff :: leBytes 8 n

/-- Consensus serialization of a byte vector (external collaborator):
length-prefixed by a `VarInt`. -/
def serBytes (b : Bytes) : Bytes := serVarInt b.length ++ b

/-- Consensus serialization of a 32-byte hash (external collaborator): its
raw bytes. -/
def serHash (h : Hash256) : Bytes := h

/-- The `OP_RETURN` opcode byte. -/
def opReturnByte : Nat := 0x6a

/-- The byte encoding the external script `Builder::push_slice` appends
for one data push: a direct length byte below 76, otherwise an
`OP_PUSHDATA1/2/4` opcode with a little-endian length. -/
def pushSliceEnc (d : Bytes) : Bytes :=
  if d.length < 76 then d.length :: d
  else if d.length < 256 then 76 :: d.length :: d
  else if d.length < 65536 then 77 :: (leBytes 2 d.length ++ d)
  else 78 :: (leBytes 4 d.length ++ d)

namespace TxCmd

/-- `bytes_32` from `src/bin/hal-elements/cmd/tx.rs`. -/
def bytes_32 (bytes : Bytes) : Option Bytes :=
  if bytes.length ≠ 32 then none else some bytes

/-- `outpoint_from_input_info` from `src/bin/hal-elements/cmd/tx.rs`:
checks both ways of specifying the previous output and aborts if they
conflict or if neither is given. -/
def outpoint_from_input_info (input : InputInfo) : CreateM OutPoint := do
  let op1 := input.prevout
  let op2 ← match input.txid with
    | some txid =>
      match input.vout with
      | some vout => pure (some (OutPoint.mk txid vout))
      | none => throw (.panicFail "\"txid\" field given in input without \"vout\" field")
    | none => pure none
  match op1, op2 with
  | some o1, some o2 =>
    if o1 ≠ o2 then throw (.panicFail "Conflicting prevout information in input.")
    else pure o1
  | some o, none => pure o
  | none, some o => pure o
  | none, none => throw (.panicFail "No previous output provided in input.")

/-- `create_confidential_value` from `src/bin/hal-elements/cmd/tx.rs`. -/
def create_confidential_value (info : ConfidentialValueInfo) : CreateM CValueN :=
  match info.type_ with
  | .null => pure .null
  | .explicit =>
    match info.value with
    | some v => pure (.explicit v)
    | none => throw (.expectFail "Field \"value\" is required for explicit values.")
  | .confidential =>
    match info.commitment with
    | some b =>
      match PedersenCommitment.from_slice b with
      | some comm => pure (.confidential comm)
      | none => throw (.expectFail "invalid confidential commitment")
    | none => throw (.expectFail "Field \"commitment\" is required for confidential values.")

/-- `create_confidential_asset` from `src/bin/hal-elements/cmd/tx.rs`. -/
def create_confidential_asset (info : ConfidentialAssetInfo) : CreateM CAssetN :=
  match info.type_ with
  | .null => pure .null
  | .explicit =>
    match info.asset with
    | some a => pure (.explicit a)
    | none => throw (.expectFail "Field \"asset\" is required for explicit assets.")
  | .confidential =>
    match info.commitment with
    | some b =>
      match Generator.from_slice b with
      | some gen => pure (.confidential gen)
      | none => throw (.expectFail "invalid confidential commitment")
    | none => throw (.expectFail "Field \"commitment\" is required for confidential values.")

/-- `create_confidential_nonce` from `src/bin/hal-elements/cmd/tx.rs`. -/
def create_confidential_nonce (info : ConfidentialNonceInfo) : CreateM CNonceN :=
  match info.type_ with
  | .null => pure .null
  | .explicit =>
    match info.nonce with
    | some n =>
      match bytes_32 n with
      | some x => pure (.explicit x)
      | none => throw (.expectFail "wrong size of \"nonce\" field")
    | none => throw (.expectFail "Field \"nonce\" is required for asset issuances.")
  | .confidential =>
    match info.commitment with
    | some b =>
      match PubKey.from_slice b with
      | some k => pure (.confidential k)
      | none => throw (.expectFail "invalid confidential commitment")
    | none => throw (.expectFail "Field \"commitment\" is required for confidential values.")

/-- `create_asset_issuance` from `src/bin/hal-elements/cmd/tx.rs`. -/
def create_asset_issuance (info : AssetIssuanceInfo) : CreateM AssetIssuance := do
  let abn ← match info.asset_blinding_nonce with
    | some b =>
      match Tweak.from_slice b with
      | some t => pure t
      | none => throw (.expectFail "Invalid \"asset_blinding_nonce\".")
    | none => throw (.expectFail "Field \"asset_blinding_nonce\" is required for asset issuances.")
  let ent ← match info.asset_entropy with
    | some b =>
      match bytes_32 b with
      | some e => pure e
      | none => throw (.expectFail "Invalid size of \"asset_entropy\".")
    | none => throw (.expectFail "Field \"asset_entropy\" is required for asset issuances.")
  let amount ← match info.amount with
    | some a => create_confidential_value a
    | none => throw (.expectFail "Field \"amount\" is required for asset issuances.")
  let inflation_keys ← match info.inflation_keys with
    | some a => create_confidential_value a
    | none => throw (.expectFail "Field \"inflation_keys\" is required for asset issuances.")
  pure ⟨abn, ent, amount, inflation_keys⟩

/-- `create_script_sig` from `src/bin/hal-elements/cmd/tx.rs`. -/
def create_script_sig (ss : InputScriptInfo) : CreateM Bytes :=
  match ss.hex with
  | some hx => do
    if ss.asm.isSome then warn "Field \"asm\" of input is ignored."
    pure hx
  | none =>
    match ss.asm with
    | some _ => throw (.panicFail "Decoding script assembly is not yet supported.")
    | none => throw (.panicFail "No scriptSig info provided.")

/-- `create_pegin_witness` from `src/bin/hal-elements/cmd/tx.rs`: checks
the declared outpoint against the input's resolved previous output,
requires an explicit asset, and emits the six-element peg-in witness
stack. -/
def create_pegin_witness (pd : PeginDataInfo) (prevout : BtcOutPoint) :
    CreateM (List Bytes) := do
  if prevout ≠ pd.outpoint then
    throw (.panicFail "Outpoint in \"pegin_data\" does not correspond to input value.")
  let asset ← match ← create_confidential_asset pd.asset with
    | .explicit a => pure a
    | _ => throw (.panicFail "Asset in \"pegin_data\" should be explicit.")
  pure [serU64 pd.value, serHash asset, serHash pd.genesis_hash,
        serBytes pd.claim_script, serBytes pd.mainchain_tx_hex, serBytes pd.merkle_proof]

/-- `convert_outpoint_to_btc` from `src/bin/hal-elements/cmd/tx.rs`:
reinterprets the elements outpoint as a bitcoin one, byte for byte. -/
def convert_outpoint_to_btc (p : OutPoint) : BtcOutPoint :=
  ⟨p.txid, p.vout⟩

/-- `create_input_witness` from `src/bin/hal-elements/cmd/tx.rs`: an
explicit peg-in witness wins (warning if peg-in data is also present),
else the peg-in witness is derived from the peg-in data, else empty. -/
def create_input_witness (info : Option InputWitnessInfo) (pd : Option PeginDataInfo)
    (prevout : OutPoint) : CreateM TxInWitness := do
  let pegin_witness ←
    match info with
    | some wi =>
      match wi.pegin_witness with
      | some pw => do
        if pd.isSome then warn "Field \"pegin_data\" of input is ignored."
        pure pw
      | none =>
        match pd with
        | some pdd => create_pegin_witness pdd (convert_outpoint_to_btc prevout)
        | none => pure []
    | none =>
      match pd with
      | some pdd => create_pegin_witness pdd (convert_outpoint_to_btc prevout)
      | none => pure []
  match info with
  | some wi => do
    let ar ← match wi.amount_rangeproof with
      | some b =>
        match RangeProof.from_slice b with
        | some r => pure (some r)
        | none => throw (.expectFail "invalid rangeproof")
      | none => pure none
    let ikr ← match wi.inflation_keys_rangeproof with
      | some b =>
        match RangeProof.from_slice b with
        | some r => pure (some r)
        | none => throw (.expectFail "invalid rangeproof")
      | none => pure none
    pure { amount_rangeproof := ar, inflation_keys_rangeproof := ikr,
           script_witness := wi.script_witness.getD [], pegin_witness := pegin_witness }
  | none =>
    pure { defaultTxInWitness with pegin_witness := pegin_witness }

/-- `create_input` from `src/bin/hal-elements/cmd/tx.rs`: the issuance
flag defaults to the presence of issuance data; when the flag is unset the
data (if any) is used, when the flag is false the data is ignored with a
warning, when the flag is true and data is absent the default issuance is
used silently. -/
def create_input (input : InputInfo) : CreateM TxIn := do
  let has_issuance := input.has_issuance.getD input.asset_issuance.isSome
  let is_pegin := input.is_pegin.getD input.pegin_data.isSome
  let prevout ← outpoint_from_input_info input
  let script_sig ← match input.script_sig with
    | some ss => create_script_sig ss
    | none => pure []
  let seqVal := input.sequence.getD 0
  if seqVal ≥ 65536 then
    throw (.panicFail "u16 conversion of \"sequence\" failed")
  let issuance ←
    if has_issuance then
      match input.asset_issuance with
      | some ai => create_asset_issuance ai
      | none => pure defaultAssetIssuance
    else do
      if input.asset_issuance.isSome then warn "Field \"asset_issuance\" of input is ignored."
      pure defaultAssetIssuance
  let wit ← create_input_witness input.witness input.pegin_data prevout
  pure { previous_output := prevout, script_sig := script_sig, sequence := seqVal,
         is_pegin := is_pegin, asset_issuance := issuance, witness := wit }

/-- `create_script_pubkey` from `src/bin/hal-elements/cmd/tx.rs`: hex
bytes win (warning on shadowed fields), assembly is unsupported, an
address is converted via its parameters while updating the
network-seen-so-far accumulator (`used_network`), which is returned
updated alongside the script. -/
def create_script_pubkey (spk : OutputScriptInfo) (used_network : Option Network) :
    CreateM (Bytes × Option Network) := do
  if spk.type_.isSome then warn "Field \"type\" of output is ignored."
  match spk.hex with
  | some hx => do
    if spk.asm.isSome then warn "Field \"asm\" of output is ignored."
    if spk.address.isSome then warn "Field \"address\" of output is ignored."
    pure (hx, used_network)
  | none =>
    match spk.asm with
    | some _ => do
      if spk.address.isSome then warn "Field \"address\" of output is ignored."
      throw (.panicFail "Decoding script assembly is not yet supported.")
    | none =>
      match spk.address with
      | some address =>
        match Network.from_params address.params with
        | some network =>
          if used_network.getD network ≠ network then
            throw (.panicFail "Addresses for different networks are used in the output scripts.")
          else pure (address.script_pubkey, some network)
        | none => pure (address.script_pubkey, used_network)
      | none => throw (.panicFail "No scriptPubKey info provided.")

/-- `create_bitcoin_script_pubkey` from `src/bin/hal-elements/cmd/tx.rs`:
same precedence as `create_script_pubkey` but with no network
accumulator. -/
def create_bitcoin_script_pubkey (spk : BtcOutputScriptInfo) : CreateM Bytes := do
  if spk.type_.isSome then warn "Field \"type\" of output is ignored."
  match spk.hex with
  | some hx => do
    if spk.asm.isSome then warn "Field \"asm\" of output is ignored."
    if spk.address.isSome then warn "Field \"address\" of output is ignored."
    pure hx
  | none =>
    match spk.asm with
    | some _ => do
      if spk.address.isSome then warn "Field \"address\" of output is ignored."
      throw (.panicFail "Decoding script assembly is not yet supported.")
    | none =>
      match spk.address with
      | some address => pure address.script_pubkey
      | none => throw (.panicFail "No scriptPubKey info provided.")

/-- `create_output_witness` from `src/bin/hal-elements/cmd/tx.rs`. -/
def create_output_witness (w : OutputWitnessInfo) : CreateM TxOutWitness := do
  let sp ← match w.surjection_proof with
    | some b =>
      match SurjectionProof.from_slice b with
      | some p => pure (some p)
      | none => throw (.expectFail "invalid surjection proof")
    | none => pure none
  let rp ← match w.rangeproof with
    | some b =>
      match RangeProof.from_slice b with
      | some p => pure (some p)
      | none => throw (.expectFail "invalid rangeproof")
    | none => pure none
  pure { surjection_proof := sp, rangeproof := rp }

/-- `create_script_pubkey_from_pegout_data` from
`src/bin/hal-elements/cmd/tx.rs`: builds the unspendable peg-out marker
script, pushing `OP_RETURN`, the genesis hash, the counterpart script's
bytes, then each extra-data element as its own push. -/
def create_script_pubkey_from_pegout_data (pd : PegoutDataInfo) : CreateM Bytes := do
  let spkBytes ← create_bitcoin_script_pubkey pd.script_pub_key
  let builder := [opReturnByte] ++ pushSliceEnc pd.genesis_hash ++ pushSliceEnc spkBytes
  pure (pd.extra_data.foldl (fun acc d => acc ++ pushSliceEnc d) builder)

/-- `create_output` from `src/bin/hal-elements/cmd/tx.rs`.  Note: the
network-seen-so-far accumulator is created afresh inside this function,
one per output, exactly as in the source. -/
def create_output (output : OutputInfo) : CreateM TxOut := do
  let used_network : Option Network := none
  let value ← match output.value with
    | some v => create_confidential_value v
    | none => throw (.expectFail "Field \"value\" is required for outputs.")
  let asset ← match output.asset with
    | some a => create_confidential_asset a
    | none => throw (.expectFail "Field \"asset\" is required for outputs.")
  let nonce ← match output.nonce with
    | some n => create_confidential_nonce n
    | none => pure .null
  let script_pubkey ← match output.script_pub_key with
    | some spk => do
      if output.pegout_data.isSome then warn "Field \"pegout_data\" of output is ignored."
      let r ← create_script_pubkey spk used_network
      pure r.1
    | none =>
      match output.pegout_data with
      | some pd => do
        match value with
        | .explicit v =>
          if v ≠ pd.value then
            throw (.panicFail "Value in \"pegout_data\" does not correspond to output value.")
          else pure ()
        | _ => throw (.panicFail "Explicit value is required for pegout data.")
        let pdAsset ← create_confidential_asset pd.asset
        if asset ≠ pdAsset then
          throw (.panicFail "Asset in \"pegout_data\" does not correspond to output value.")
        create_script_pubkey_from_pegout_data pd
      | none => pure []
  let witness ← match output.witness with
    | some w => create_output_witness w
    | none => pure defaultTxOutWitness
  pure { asset := asset, value := value, nonce := nonce,
         script_pubkey := script_pubkey, witness := witness }

/-- `create_transaction` from `src/bin/hal-elements/cmd/tx.rs`: warns on
ignored informational fields, requires version, locktime and the
inputs/outputs fields to be present, and maps the input/output encoders
in order. -/
def create_transaction (info : TransactionInfo) : CreateM Transaction := do
  if info.txid.isSome then warn "Field \"txid\" is ignored."
  if info.hash.isSome then warn "Field \"hash\" is ignored."
  if info.size.isSome then warn "Field \"size\" is ignored."
  if info.weight.isSome then warn "Field \"weight\" is ignored."
  if info.vsize.isSome then warn "Field \"vsize\" is ignored."
  let version ← match info.version with
    | some v => pure v
    | none => throw (.expectFail "Field \"version\" is required.")
  let locktime ← match info.locktime with
    | some l => pure l
    | none => throw (.expectFail "Field \"locktime\" is required.")
  let inputs ← match info.inputs with
    | some l => l.mapM create_input
    | none => throw (.expectFail "Field \"inputs\" is required.")
  let outputs ← match info.outputs with
    | some l => l.mapM create_output
    | none => throw (.expectFail "Field \"outputs\" is required.")
  pure { version := version, lock_time := locktime, input := inputs, output := outputs }

end TxCmd

/-- Claim C3: encode resolves the previous output from whichever of the
combined form or the split txid+vout form is supplied; conflicting forms
fail with the conflict fault, agreeing forms succeed with that outpoint,
a single form succeeds with it, and total absence fails. -/
theorem claim_C3_outpoint_resolution :
    (∀ (i : TxCmd.InputInfo) (o1 : TxCmd.OutPoint) (t : Hash256) (v : Nat),
      i.prevout = some o1 → i.txid = some t → i.vout = some v → o1 ≠ ⟨t, v⟩ →
      runE (TxCmd.outpoint_from_input_info i) =
        .error (.panicFail "Conflicting prevout information in input.")) ∧
    (∀ (i : TxCmd.InputInfo) (o1 : TxCmd.OutPoint) (t : Hash256) (v : Nat),
      i.prevout = some o1 → i.txid = some t → i.vout = some v → o1 = ⟨t, v⟩ →
      runE (TxCmd.outpoint_from_input_info i) = .ok (o1, [])) ∧
    (∀ (i : TxCmd.InputInfo) (o1 : TxCmd.OutPoint),
      i.prevout = some o1 → i.txid = none →
      runE (TxCmd.outpoint_from_input_info i) = .ok (o1, [])) ∧
    (∀ (i : TxCmd.InputInfo) (t : Hash256) (v : Nat),
      i.prevout = none → i.txid = some t → i.vout = some v →
      runE (TxCmd.outpoint_from_input_info i) = .ok (⟨t, v⟩, [])) ∧
    (∀ i : TxCmd.InputInfo,
      i.prevout = none → i.txid = none →
      runE (TxCmd.outpoint_from_input_info i) =
        .error (.panicFail "No previous output provided in input.")) := by
  refine ⟨?_, ?_, ?_, ?_, ?_⟩
  · intro i o1 t v h1 h2 h3 h4
    obtain ⟨p, tt, vv, ss, sq, ip, hi, ai, w, pd⟩ := i
    simp only at h1 h2 h3
    subst h1 h2 h3
    simp [runE, TxCmd.outpoint_from_input_info, h4, run_throw]
  · intro i o1 t v h1 h2 h3 h4
    obtain ⟨p, tt, vv, ss, sq, ip, hi, ai, w, pd⟩ := i
    simp only at h1 h2 h3
    subst h1 h2 h3
    simp [runE, TxCmd.outpoint_from_input_info, h4, run_throw, run_pure, except_pure]
  · intro i o1 h1 h2
    obtain ⟨p, tt, vv, ss, sq, ip, hi, ai, w, pd⟩ := i
    simp only at h1 h2
    subst h1 h2
    rfl
  · intro i t v h1 h2 h3
    obtain ⟨p, tt, vv, ss, sq, ip, hi, ai, w, pd⟩ := i
    simp only at h1 h2 h3
    subst h1 h2 h3
    rfl
  · intro i h1 h2
    obtain ⟨p, tt, vv, ss, sq, ip, hi, ai, w, pd⟩ := i
    simp only at h1 h2
    subst h1 h2
    rfl

/-- Witness for C3: a combined form naming index 0 conflicts with a split
form naming index 1 of the same transaction id. -/
theorem claim_C3_witness :
    runE (TxCmd.outpoint_from_input_info
      ⟨some ⟨List.replicate 32 0xaa, 0⟩, some (List.replicate 32 0xaa), some 1,
       none, none, none, none, none, none, none⟩) =
      .error (.panicFail "Conflicting prevout information in input.") :=
  claim_C3_outpoint_resolution.1 _ _ _ _ rfl rfl rfl (by decide)

/-- Claim C1, evaluated at the failing input: a transaction whose two
outputs use addresses of two different networks (Liquid and Elements
regtest) is encoded successfully — the network-consistency check never
fires because the `used_network` accumulator is created afresh for each
output inside `create_output` instead of being threaded across the whole
transaction's outputs, and at most one address is consulted per output. -/
theorem claim_C1_mixed_networks_accepted :
    runE (TxCmd.create_transaction
      ⟨none, none, none, none, none, none, some 2, some 0, some [],
       some [⟨some ⟨none, none, none, some ⟨.liquidParams, [1]⟩⟩,
              some ⟨.explicit, some (List.replicate 32 3), none, none⟩,
              some ⟨.explicit, some 1000, none⟩, none, none, none, none⟩,
             ⟨some ⟨none, none, none, some ⟨.elementsParams, [2]⟩⟩,
              some ⟨.explicit, some (List.replicate 32 3), none, none⟩,
              some ⟨.explicit, some 2000, none⟩, none, none, none, none⟩]⟩) =
      .ok (⟨2, 0, [],
            [⟨.explicit (List.replicate 32 3), .explicit 1000, .null, [1], ⟨none, none⟩⟩,
             ⟨.explicit (List.replicate 32 3), .explicit 2000, .null, [2], ⟨none, none⟩⟩]⟩,
           []) := rfl

/-- Counterexample to claim C6: a descriptor whose inputs and outputs
lists are present but empty is encoded successfully, where the claim says
encoding must fail. -/
theorem claim_C6_counterexample :
    runE (TxCmd.create_transaction
      ⟨none, none, none, none, none, none, some 2, some 0, some [], some []⟩) =
      .ok (⟨2, 0, [], []⟩, []) := rfl

/-- Claim C6 as amended: encode requires the version, lock time, inputs
and outputs fields to be present (failing with the missing-field fault
otherwise), but present-and-empty input/output lists are accepted. -/
theorem claim_C6_required_fields :
    (∀ info : TxCmd.TransactionInfo, info.version = none →
      runE (TxCmd.create_transaction info) =
        .error (.expectFail "Field \"version\" is required.")) ∧
    (∀ (info : TxCmd.TransactionInfo) (v : Nat),
      info.version = some v → info.locktime = none →
      runE (TxCmd.create_transaction info) =
        .error (.expectFail "Field \"locktime\" is required.")) ∧
    (∀ (info : TxCmd.TransactionInfo) (v lt : Nat),
      info.version = some v → info.locktime = some lt → info.inputs = none →
      runE (TxCmd.create_transaction info) =
        .error (.expectFail "Field \"inputs\" is required.")) ∧
    (∀ (info : TxCmd.TransactionInfo) (v lt : Nat),
      info.version = some v → info.locktime = some lt → info.inputs = some [] →
      info.outputs = none →
      runE (TxCmd.create_transaction info) =
        .error (.expectFail "Field \"outputs\" is required.")) ∧
    (∀ (info : TxCmd.TransactionInfo) (v lt : Nat),
      info.txid = none → info.hash = none → info.size = none → info.weight = none →
      info.vsize = none → info.version = some v → info.locktime = some lt →
      info.inputs = some [] → info.outputs = some [] →
      runE (TxCmd.create_transaction info) = .ok (⟨v, lt, [], []⟩, [])) := by
  refine ⟨?_, ?_, ?_, ?_, ?_⟩
  · intro info h
    obtain ⟨txid, wtxid, hash, size, weight, vsize, version, locktime, inputs, outputs⟩ := info
    simp only at h
    subst h
    cases txid <;> cases hash <;> cases size <;> cases weight <;> cases vsize <;> rfl
  · intro info v h1 h2
    obtain ⟨txid, wtxid, hash, size, weight, vsize, version, locktime, inputs, outputs⟩ := info
    simp only at h1 h2
    subst h1 h2
    cases txid <;> cases hash <;> cases size <;> cases weight <;> cases vsize <;> rfl
  · intro info v lt h1 h2 h3
    obtain ⟨txid, wtxid, hash, size, weight, vsize, version, locktime, inputs, outputs⟩ := info
    simp only at h1 h2 h3
    subst h1 h2 h3
    cases txid <;> cases hash <;> cases size <;> cases weight <;> cases vsize <;> rfl
  · intro info v lt h1 h2 h3 h4
    obtain ⟨txid, wtxid, hash, size, weight, vsize, version, locktime, inputs, outputs⟩ := info
    simp only at h1 h2 h3 h4
    subst h1 h2 h3 h4
    cases txid <;> cases hash <;> cases size <;> cases weight <;> cases vsize <;> rfl
  · intro info v lt h1 h2 h3 h4 h5 h6 h7 h8 h9
    obtain ⟨txid, wtxid, hash, size, weight, vsize, version, locktime, inputs, outputs⟩ := info
    simp only at h1 h2 h3 h4 h5 h6 h7 h8 h9
    subst h1 h2 h3 h4 h5 h6 h7 h8 h9
    rfl

/-- Witness for C6: a descriptor with no version at all fails with the
version missing-field fault. -/
theorem claim_C6_witness :
    runE (TxCmd.create_transaction
      ⟨none, none, none, none, none, none, none, none, none, none⟩) =
      .error (.expectFail "Field \"version\" is required.") :=
  claim_C6_required_fields.1 _ rfl

/-- Counterexample to claim C10: with `has_issuance` unset and issuance
data supplied, the flag defaults to the presence of the data, so the data
is used — not ignored, no warning, and the result is not the default
issuance — where the claim says unset behaves like false. -/
theorem claim_C10_counterexample :
    runE (TxCmd.create_input
      ⟨some ⟨List.replicate 32 1, 0⟩, none, none, none, none, none, none,
       some ⟨some (List.replicate 32 2), some (List.replicate 32 4),
             some ⟨.explicit, some 5, none⟩, some ⟨.explicit, some 7, none⟩⟩,
       none, none⟩) =
      .ok (⟨⟨List.replicate 32 1, 0⟩, [], 0, false,
            ⟨⟨List.replicate 32 2⟩, List.replicate 32 4, .explicit 5, .explicit 7⟩,
            ⟨none, none, [], []⟩⟩, []) ∧
    (⟨⟨List.replicate 32 2⟩, List.replicate 32 4, .explicit 5, .explicit 7⟩ :
        TxCmd.AssetIssuance) ≠ TxCmd.defaultAssetIssuance :=
  ⟨rfl, by decide⟩

/-- Claim C10 as amended: with `has_issuance = true` and no issuance data,
encode silently fills the default all-zero issuance; with
`has_issuance = false` and data supplied, the data is ignored with a
warning and the default is used; with `has_issuance` unset and data
supplied, the flag defaults to true and the supplied data is used with no
warning. -/
theorem claim_C10_issuance_flag :
    (∀ op : TxCmd.OutPoint,
      runE (TxCmd.create_input
        ⟨some op, none, none, none, none, none, some true, none, none, none⟩) =
        .ok (⟨op, [], 0, false, TxCmd.defaultAssetIssuance, ⟨none, none, [], []⟩⟩, [])) ∧
    (∀ (op : TxCmd.OutPoint) (d : TxCmd.AssetIssuanceInfo),
      runE (TxCmd.create_input
        ⟨some op, none, none, none, none, none, some false, some d, none, none⟩) =
        .ok (⟨op, [], 0, false, TxCmd.defaultAssetIssuance, ⟨none, none, [], []⟩⟩,
             ["Field \"asset_issuance\" of input is ignored."])) ∧
    (∀ (op : TxCmd.OutPoint) (d : TxCmd.AssetIssuanceInfo) (ai : TxCmd.AssetIssuance),
      runE (TxCmd.create_asset_issuance d) = .ok (ai, []) →
      runE (TxCmd.create_input
        ⟨some op, none, none, none, none, none, none, some d, none, none⟩) =
        .ok (⟨op, [], 0, false, ai, ⟨none, none, [], []⟩⟩, [])) := by
  refine ⟨?_, ?_, ?_⟩
  · intro op
    rfl
  · intro op d
    rfl
  · intro op d ai h
    simp only [runE] at h
    simp only [runE, TxCmd.create_input]
    simp [run_bind, h, TxCmd.outpoint_from_input_info, run_pure, run_throw]
    rfl

/-- Witness for C10: a concrete issuance descriptor supplied with the flag
unset is used as the input's issuance. -/
theorem claim_C10_witness :
    runE (TxCmd.create_input
      ⟨some ⟨List.replicate 32 9, 1⟩, none, none, none, none, none, none,
       some ⟨some (List.replicate 32 2), some (List.replicate 32 4),
             some ⟨.explicit, some 5, none⟩, some ⟨.explicit, some 7, none⟩⟩,
       none, none⟩) =
      .ok (⟨⟨List.replicate 32 9, 1⟩, [], 0, false,
            ⟨⟨List.replicate 32 2⟩, List.replicate 32 4, .explicit 5, .explicit 7⟩,
            ⟨none, none, [], []⟩⟩, []) :=
  claim_C10_issuance_flag.2.2 _ _ _ rfl

/-- Claim C7: peg-in data with no explicit peg-in witness is lowered into
the six-element peg-in witness stack (serialized value, explicit asset id,
genesis hash, claim script, raw counterpart transaction, Merkle proof);
encode fails when the declared outpoint differs from the input's resolved
previous output after chain-address-format translation, or when the asset
is not explicit; an explicit peg-in witness wins over supplied peg-in
data with only a warning, never a failure. -/
theorem claim_C7_pegin_witness_lowering :
    (∀ (prevout : TxCmd.OutPoint) (a gh cs mtx mp rb : Bytes) (v : Nat)
        (mt : Option Unit),
      runE (TxCmd.create_input_witness none
        (some ⟨TxCmd.convert_outpoint_to_btc prevout, v,
               ⟨.explicit, some a, none, none⟩, gh, cs, mtx, mt, mp, rb⟩) prevout) =
        .ok (⟨none, none, [],
              [serU64 v, serHash a, serHash gh, serBytes cs, serBytes mtx, serBytes mp]⟩,
             [])) ∧
    (∀ (prevout : TxCmd.OutPoint) (a gh cs mtx mp rb : Bytes) (v : Nat)
        (mt : Option Unit) (ar ikr : Option Bytes) (sw : Option (List Bytes)),
      runE (TxCmd.create_input_witness (some ⟨ar, ikr, sw, none⟩)
        (some ⟨TxCmd.convert_outpoint_to_btc prevout, v,
               ⟨.explicit, some a, none, none⟩, gh, cs, mtx, mt, mp, rb⟩) prevout) =
        .ok (⟨ar.map (fun b => ⟨b⟩), ikr.map (fun b => ⟨b⟩), sw.getD [],
              [serU64 v, serHash a, serHash gh, serBytes cs, serBytes mtx, serBytes mp]⟩,
             [])) ∧
    (∀ (prevout : TxCmd.OutPoint) (op2 : TxCmd.BtcOutPoint)
        (a gh cs mtx mp rb : Bytes) (v : Nat) (mt : Option Unit),
      op2 ≠ TxCmd.convert_outpoint_to_btc prevout →
      runE (TxCmd.create_input_witness none
        (some ⟨op2, v, ⟨.explicit, some a, none, none⟩, gh, cs, mtx, mt, mp, rb⟩) prevout) =
        .error (.panicFail "Outpoint in \"pegin_data\" does not correspond to input value.")) ∧
    (∀ (prevout : TxCmd.OutPoint) (gh cs mtx mp rb : Bytes) (v : Nat)
        (mt : Option Unit) (aa : Option Hash256) (ac : Option Bytes)
        (al : Option ConfidentialAssetLabel),
      runE (TxCmd.create_input_witness none
        (some ⟨TxCmd.convert_outpoint_to_btc prevout, v,
               ⟨.null, aa, ac, al⟩, gh, cs, mtx, mt, mp, rb⟩) prevout) =
        .error (.panicFail "Asset in \"pegin_data\" should be explicit.")) ∧
    (∀ (prevout : TxCmd.OutPoint) (pd : TxCmd.PeginDataInfo) (pw : List Bytes)
        (ar ikr : Option Bytes) (sw : Option (List Bytes)),
      runE (TxCmd.create_input_witness (some ⟨ar, ikr, sw, some pw⟩) (some pd) prevout) =
        .ok (⟨ar.map (fun b => ⟨b⟩), ikr.map (fun b => ⟨b⟩), sw.getD [], pw⟩,
             ["Field \"pegin_data\" of input is ignored."])) := by
  refine ⟨?_, ?_, ?_, ?_, ?_⟩
  · intro prevout a gh cs mtx mp rb v mt
    simp [runE, TxCmd.create_input_witness, TxCmd.create_pegin_witness,
          TxCmd.create_confidential_asset, run_bind, run_pure, run_throw]
    rfl
  · intro prevout a gh cs mtx mp rb v mt ar ikr sw
    cases ar <;> cases ikr <;> cases sw <;>
      (simp [runE, TxCmd.create_input_witness, TxCmd.create_pegin_witness,
             TxCmd.create_confidential_asset, run_bind, run_pure, run_throw]
       try rfl)
  · intro prevout op2 a gh cs mtx mp rb v mt h
    have h' : TxCmd.convert_outpoint_to_btc prevout ≠ op2 := fun q => h q.symm
    simp [runE, TxCmd.create_input_witness, TxCmd.create_pegin_witness, h',
          run_bind, run_pure, run_throw]
    rfl
  · intro prevout gh cs mtx mp rb v mt aa ac al
    simp [runE, TxCmd.create_input_witness, TxCmd.create_pegin_witness,
          TxCmd.create_confidential_asset, run_bind, run_pure, run_throw]
  · intro prevout pd pw ar ikr sw
    cases ar <;> cases ikr <;> cases sw <;> rfl

/-- Witness for C7: a peg-in outpoint naming index 1 while the input
spends index 0 makes encoding fail with the outpoint-mismatch fault. -/
theorem claim_C7_witness :
    runE (TxCmd.create_input_witness none
      (some ⟨⟨List.replicate 32 7, 1⟩, 50, ⟨.explicit, some (List.replicate 32 3), none, none⟩,
             List.replicate 32 6, [1, 2], [3], none, [4], List.replicate 32 8⟩)
      ⟨List.replicate 32 7, 0⟩) =
      .error (.panicFail "Outpoint in \"pegin_data\" does not correspond to input value.") :=
  claim_C7_pegin_witness_lowering.2.2.1 _ _ _ _ _ _ _ _ _ _ (by decide)

/-- Claim C4: an output descriptor carrying peg-out data with genesis hash
`G`, counterpart script bytes `S`, extra data `[d1, d2]` and no explicit
output script encodes to the unspendable marker script pushing, in order,
the null-data opcode, `G`, `S`, `d1` and `d2`, each extra-data element as
its own push. -/
theorem claim_C4_pegout_lowering :
    ∀ (v : Nat) (G S d1 d2 : Bytes) (aid : Hash256),
    runE (TxCmd.create_output
      ⟨none, some ⟨.explicit, some aid, none, none⟩, some ⟨.explicit, some v, none⟩,
       none, none, none,
       some ⟨v, ⟨.explicit, some aid, none, none⟩, G, ⟨some S, none, none, none⟩, [d1, d2]⟩⟩) =
      .ok (⟨.explicit aid, .explicit v, .null,
            [opReturnByte] ++ pushSliceEnc G ++ pushSliceEnc S ++
              pushSliceEnc d1 ++ pushSliceEnc d2,
            ⟨none, none⟩⟩, []) := by
  intro v G S d1 d2 aid
  simp [runE, TxCmd.create_output, TxCmd.create_confidential_value,
        TxCmd.create_confidential_asset, TxCmd.create_script_pubkey_from_pegout_data,
        TxCmd.create_bitcoin_script_pubkey, run_bind, run_pure, run_throw]
  rfl

namespace HalTx

open TxCmd

/-- The external script disassembler (`Script::asm`), consumed as an
unspecified display rendering; no claim depends on its content. -/
def scriptAsm (s : Bytes) : String := toString s

/-- External bitcoin `Script::is_p2pk`: a 65- or 33-byte key push followed
by `OP_CHECKSIG`. -/
def is_p2pk (s : Bytes) : Bool :=
  (s.length == 67 && s.getD 0 0 == 65 && s.getD 66 0 == 172) ||
  (s.length == 35 && s.getD 0 0 == 33 && s.getD 34 0 == 172)

/-- External bitcoin `Script::is_p2pkh`. -/
def is_p2pkh (s : Bytes) : Bool :=
  s.length == 25 && s.getD 0 0 == 118 && s.getD 1 0 == 169 && s.getD 2 0 == 20 &&
  s.getD 23 0 == 136 && s.getD 24 0 == 172

/-- External bitcoin `Script::is_op_return`: nonempty and starting with
`OP_RETURN`. -/
def is_op_return (s : Bytes) : Bool :=
  !s.isEmpty && s.getD 0 0 == 106

/-- External bitcoin `Script::is_p2sh`. -/
def is_p2sh (s : Bytes) : Bool :=
  s.length == 23 && s.getD 0 0 == 169 && s.getD 1 0 == 20 && s.getD 22 0 == 135

/-- External bitcoin `Script::is_v0_p2wpkh`. -/
def is_v0_p2wpkh (s : Bytes) : Bool :=
  s.length == 22 && s.getD 0 0 == 0 && s.getD 1 0 == 20

/-- External bitcoin `Script::is_v0_p2wsh`. -/
def is_v0_p2wsh (s : Bytes) : Bool :=
  s.length == 34 && s.getD 0 0 == 0 && s.getD 1 0 == 32

/-- The type-classification if-chain of `OutputScript::get_info` from
`src/tx.rs`, in source order: p2pk, p2pkh, opreturn, p2sh, p2wpkh, p2wsh,
unknown. -/
def scriptTypeTag (s : Bytes) : String :=
  if is_p2pk s then "p2pk"
  else if is_p2pkh s then "p2pkh"
  else if is_op_return s then "opreturn"
  else if is_p2sh s then "p2sh"
  else if is_v0_p2wpkh s then "p2wpkh"
  else if is_v0_p2wsh s then "p2wsh"
  else "unknown"

/-- The external elements `Address::from_script`: some standard address
for the standard script shapes, none otherwise; no claim depends on the
derived address itself. -/
def addressFromScript (s : Bytes) (network : Network) : Option ElementsAddress :=
  if is_p2pkh s || is_p2sh s || is_v0_p2wpkh s || is_v0_p2wsh s then
    some ⟨network.address_params, s⟩
  else none

/-- `OutputScript::get_info` (decode) from `src/tx.rs`. -/
def outputScriptGetInfo (s : Bytes) (network : Network) : OutputScriptInfo :=
  { hex := some s, asm := some (scriptAsm s), type_ := some (scriptTypeTag s),
    address := addressFromScript s network }

/-- The decode direction of the newer confidential value
(`GetInfo for Value`): the commitment of a confidential value is its
33 serialized bytes. -/
def valueGetInfoN (v : CValueN) : ConfidentialValueInfo where
  type_ := match v with
    | .null => .null
    | .explicit _ => .explicit
    | .confidential _ => .confidential
  value := match v with
    | .explicit n => some n
    | _ => none
  commitment := match v with
    | .confidential c => some c.bytes
    | _ => none

/-- The decode direction of the newer confidential asset. -/
def assetGetInfoN (a : CAssetN) : ConfidentialAssetInfo where
  type_ := match a with
    | .null => .null
    | .explicit _ => .explicit
    | .confidential _ => .confidential
  asset := match a with
    | .explicit i => some i
    | _ => none
  commitment := match a with
    | .confidential g => some g.bytes
    | _ => none
  label := match a with
    | .explicit i => HalConfidential.fromAssetId i
    | _ => none

/-- The decode direction of the newer confidential nonce. -/
def nonceGetInfoN (n : CNonceN) : ConfidentialNonceInfo where
  type_ := match n with
    | .null => .null
    | .explicit _ => .explicit
    | .confidential _ => .confidential
  nonce := match n with
    | .explicit x => some x
    | _ => none
  commitment := match n with
    | .confidential k => some k.bytes
    | _ => none

/-- `TxOutWitness::get_info` (decode) from `src/tx.rs`: the proofs are
re-serialized to their byte blobs. -/
def outWitnessGetInfo (w : TxOutWitness) : OutputWitnessInfo :=
  { surjection_proof := w.surjection_proof.map (fun p => p.bytes),
    rangeproof := w.rangeproof.map (fun p => p.bytes) }

/-- Fuelled parser over the opcodes after `OP_RETURN`: succeeds iff every
remaining instruction is a data push (direct push or `OP_PUSHDATA1/2/4`),
returning the pushed elements (part of the modelled external
`TxOut::pegout_data`). -/
def parsePushesGo : Nat → Bytes → Option (List Bytes)
  | _, [] => some []
  | 0, _ :: _ => none
  | fuel + 1, b :: rest =>
    if 1 ≤ b ∧ b ≤ 75 then
      if rest.length < b then none
      else (parsePushesGo fuel (rest.drop b)).map (fun ds => rest.take b :: ds)
    else if b = 76 then
      match rest with
      | n :: rest2 =>
        if rest2.length < n then none
        else (parsePushesGo fuel (rest2.drop n)).map (fun ds => rest2.take n :: ds)
      | [] => none
    else if b = 77 then
      match rest with
      | n0 :: n1 :: rest2 =>
        let n := n0 + 256 * n1
        if rest2.length < n then none
        else (parsePushesGo fuel (rest2.drop n)).map (fun ds => rest2.take n :: ds)
      | _ => none
    else none

/-- Push-parse of a byte string with enough fuel. -/
def parsePushes (l : Bytes) : Option (List Bytes) := parsePushesGo l.length l

/-- Modelled from the spec: the external elements `TxOut::pegout_data`
(only its callers live in this repository): present iff asset and value
are explicit and the script matches the peg-out marker shape (`OP_RETURN`,
then pushes, the first being a 32-byte genesis hash and the second the
counterpart script); returns value, asset id, genesis hash, counterpart
script and extra data. -/
def txOutPegoutData (t : TxOut) : Option (Nat × Hash256 × Hash256 × Bytes × List Bytes) :=
  match t.value, t.asset with
  | .explicit v, .explicit aid =>
    match t.script_pubkey with
    | b :: rest =>
      if b = opReturnByte then
        match parsePushes rest with
        | some (gh :: spk :: extra) =>
          if gh.length = 32 then some (v, aid, gh, spk, extra) else none
        | _ => none
      else none
    | [] => none
  | _, _ => none

/-- The external hal crate's `OutputScript::get_info` for the bitcoin-side
counterpart script (used when decoding peg-out data); its derived address
is not modelled since no claim consumes it. -/
def btcOutputScriptGetInfo (s : Bytes) : BtcOutputScriptInfo :=
  { hex := some s, asm := some (scriptAsm s), type_ := some (scriptTypeTag s),
    address := none }

/-- `PegoutData::get_info` (decode) from `src/tx.rs`. -/
def pegoutDataGetInfo (pd : Nat × Hash256 × Hash256 × Bytes × List Bytes) :
    PegoutDataInfo :=
  { value := pd.1, asset := assetGetInfoN (.explicit pd.2.1),
    genesis_hash := pd.2.2.1, script_pub_key := btcOutputScriptGetInfo pd.2.2.2.1,
    extra_data := pd.2.2.2.2 }

/-- `TxOut::get_info` (decode) from `src/tx.rs`: the fee flag is derived —
true iff the asset and the value are both explicit and the script is
empty. -/
def txOutGetInfo (t : TxOut) (network : Network) : OutputInfo :=
  let exp_ass := match t.asset with
    | .explicit _ => true
    | _ => false
  let exp_val := match t.value with
    | .explicit _ => true
    | _ => false
  let is_fee := exp_ass && exp_val && t.script_pubkey.length == 0
  { script_pub_key := some (outputScriptGetInfo t.script_pubkey network),
    asset := some (assetGetInfoN t.asset),
    value := some (valueGetInfoN t.value),
    nonce := some (nonceGetInfoN t.nonce),
    witness := some (outWitnessGetInfo t.witness),
    is_fee := some is_fee,
    pegout_data := (txOutPegoutData t).map pegoutDataGetInfo }

/-- Spec-side classification: the fixed ordered list of type tags, tested
in order, first match winning, defaulting to unknown — written from the
spec's words for comparison with the code's if-chain. -/
def orderedTypeTags : List ((Bytes → Bool) × String) :=
  [(is_p2pk, "p2pk"), (is_p2pkh, "p2pkh"), (is_op_return, "opreturn"),
   (is_p2sh, "p2sh"), (is_v0_p2wpkh, "p2wpkh"), (is_v0_p2wsh, "p2wsh")]

/-- Spec-side first-match classification over `orderedTypeTags`. -/
def firstMatchTag (s : Bytes) : String :=
  match orderedTypeTags.find? (fun pt => pt.1 s) with
  | some pt => pt.2
  | none => "unknown"

end HalTx

/-- Claim C5: decode sets the fee flag iff the asset is explicit, the
value is explicit, and the script is zero-length; negating any one of the
three conditions makes it false. -/
theorem claim_C5_fee_classification :
    ∀ (t : TxCmd.TxOut) (network : Network),
      (HalTx.txOutGetInfo t network).is_fee = some true ↔
        ((∃ a, t.asset = .explicit a) ∧ (∃ v, t.value = .explicit v) ∧
          t.script_pubkey = []) := by
  intro t network
  obtain ⟨asset, value, nonce, spk, wit⟩ := t
  cases asset <;> cases value <;> cases spk <;>
    simp [HalTx.txOutGetInfo]

/-- Claim C8: decode classifies every output script with exactly one tag
from the fixed ordered set, and the code's if-chain agrees with the
spec-side ordered first-match classification. -/
theorem claim_C8_script_type_first_match :
    ∀ (s : Bytes) (network : Network),
      (HalTx.outputScriptGetInfo s network).type_ = some (HalTx.firstMatchTag s) ∧
      HalTx.firstMatchTag s ∈
        ["p2pk", "p2pkh", "opreturn", "p2sh", "p2wpkh", "p2wsh", "unknown"] := by
  intro s network
  simp only [HalTx.outputScriptGetInfo, HalTx.scriptTypeTag, HalTx.firstMatchTag,
             HalTx.orderedTypeTags, List.find?]
  cases h1 : HalTx.is_p2pk s <;> cases h2 : HalTx.is_p2pkh s <;>
    cases h3 : HalTx.is_op_return s <;> cases h4 : HalTx.is_p2sh s <;>
    cases h5 : HalTx.is_v0_p2wpkh s <;> cases h6 : HalTx.is_v0_p2wsh s <;>
    simp [h1, h2, h3, h4, h5, h6]
